import Mathlib

/-!
Verification of the bank-statement → financial-statements pipeline
(`src/app.py`).  The pipeline is a one-shot derivation over an in-memory
table: keyword categorization of each transaction, aggregation into
income-statement and balance-sheet figures, three guarded ratios, and
three valuation proxies.  Amounts are modelled as rationals (`ℚ`);
descriptions and category labels as strings.
-/

namespace App

/-- ASCII lowering of a single character, as the Python `str.lower` acts on
the ASCII range (the only range the keyword rules inspect). -/
def lowerChar (c : Char) : Char :=
  if 'A' ≤ c ∧ c ≤ 'Z' then Char.ofNat (c.toNat + 32) else c

/-- Python `str(description).lower()` from `categorize` (src/app.py line 22). -/
def lowerStr (s : String) : String :=
  String.mk (s.data.map lowerChar)

/-- Does the character list start with the given pattern list? -/
def startsWithList : List Char → List Char → Bool
  | _, [] => true
  | [], _ :: _ => false
  | a :: as, b :: bs => (a == b) && startsWithList as bs

/-- Contiguous-substring test on character lists: Python `needle in hay`. -/
def containsList : List Char → List Char → Bool
  | [], needle => needle.isEmpty
  | a :: rest, needle => startsWithList (a :: rest) needle || containsList rest needle

/-- Python `needle in hay` on strings. -/
def strContains (hay needle : String) : Bool :=
  containsList hay.data needle.data

/-- The function `categorize(description, amount)` (src/app.py lines 21-33):
first matching keyword rule wins, then the sign of the amount decides. -/
def categorize (description : String) (amount : ℚ) : String :=
  let desc := lowerStr description
  if strContains desc "shell" || strContains desc "fuel" then "Fuel Expense"
  else if strContains desc "salary" || strContains desc "payroll" then "Payroll Expense"
  else if strContains desc "rent" then "Rent Expense"
  else if strContains desc "tax" || strContains desc "vat" then "Tax"
  else if amount > 0 then "Sales Income"
  else "Other Expense"

/-- One row of the uploaded table: the three required columns. -/
structure Row where
  date : String
  description : String
  amount : ℚ
deriving DecidableEq, Repr

/-- The `Category` column added at src/app.py line 41. -/
def categoryOf (r : Row) : String :=
  categorize r.description r.amount

/-- Sum of the `Amount` column of a list of rows. -/
def sumAmounts (rows : List Row) : ℚ :=
  (rows.map Row.amount).sum

/-- Figure `income` (src/app.py line 48): sum of amounts whose category is
`"Sales Income"`. -/
def income (rows : List Row) : ℚ :=
  sumAmounts (rows.filter (fun r => categoryOf r == "Sales Income"))

/-- Figure `expenses` (src/app.py line 49): sum of amounts whose category
label contains `"Expense"`, sign preserved. -/
def expenses (rows : List Row) : ℚ :=
  sumAmounts (rows.filter (fun r => strContains (categoryOf r) "Expense"))

/-- Figure `net_profit` (src/app.py line 50). -/
def net_profit (rows : List Row) : ℚ :=
  income rows + expenses rows

/-- Figure `total_assets` (src/app.py line 58): sum of every amount. -/
def total_assets (rows : List Row) : ℚ :=
  sumAmounts rows

/-- Figure `total_liabilities` (src/app.py line 59): absolute value of the
summed expense-category amounts. -/
def total_liabilities (rows : List Row) : ℚ :=
  |sumAmounts (rows.filter (fun r => strContains (categoryOf r) "Expense"))|

/-- Figure `equity` (src/app.py line 60). -/
def equity (rows : List Row) : ℚ :=
  total_assets rows - total_liabilities rows

/-- Ratio `"Net Profit Margin (%)"` (src/app.py line 70). -/
def netProfitMargin (np inc : ℚ) : ℚ :=
  if inc ≠ 0 then np / inc * 100 else 0

/-- Ratio `"Debt-to-Equity"` (src/app.py line 71). -/
def debtToEquity (liab eq : ℚ) : ℚ :=
  if eq ≠ 0 then liab / eq else 0

/-- Ratio `"Equity Ratio (%)"` (src/app.py line 72). -/
def equityRatioPct (eq assets : ℚ) : ℚ :=
  if assets ≠ 0 then eq / assets * 100 else 0

/-- Valuation proxy `dcf_ev` (src/app.py line 86). -/
def dcf_ev (np : ℚ) : ℚ := np * 5

/-- Valuation proxy `ev_ebitda` (src/app.py line 87). -/
def ev_ebitda (np : ℚ) : ℚ := np * 6

/-- Valuation proxy `ev_revenue` (src/app.py line 88): `income * 1.5`. -/
def ev_revenue (inc : ℚ) : ℚ := inc * (3 / 2)

/-- Everything the happy path of a run derives from the rows (src/app.py
lines 41-91): aggregates, ratios and valuation proxies. -/
structure Report where
  incomeV : ℚ
  expensesV : ℚ
  netProfitV : ℚ
  assetsV : ℚ
  liabilitiesV : ℚ
  equityV : ℚ
  netProfitMarginV : ℚ
  debtToEquityV : ℚ
  equityRatioPctV : ℚ
  dcfEvV : ℚ
  evEbitdaV : ℚ
  evRevenueV : ℚ
deriving DecidableEq, Repr

/-- The full derivation performed on a validated table (src/app.py
lines 41-91); it reads only the rows, never the column list. -/
def mkReport (rows : List Row) : Report :=
  { incomeV := income rows
    expensesV := expenses rows
    netProfitV := net_profit rows
    assetsV := total_assets rows
    liabilitiesV := total_liabilities rows
    equityV := equity rows
    netProfitMarginV := netProfitMargin (net_profit rows) (income rows)
    debtToEquityV := debtToEquity (total_liabilities rows) (equity rows)
    equityRatioPctV := equityRatioPct (equity rows) (total_assets rows)
    dcfEvV := dcf_ev (net_profit rows)
    evEbitdaV := ev_ebitda (net_profit rows)
    evRevenueV := ev_revenue (income rows) }

/-- The check `required_cols.issubset(df.columns)` (src/app.py lines 37-38). -/
def requiredColsPresent (cols : List String) : Bool :=
  ["Date", "Description", "Amount"].all (fun c => cols.contains c)

/-- The run after parsing (src/app.py lines 36-41): a missing required
column surfaces the `st.error` message and nothing else is produced;
otherwise the whole report is derived from the rows. -/
def process (cols : List String) (rows : List Row) : Except String Report :=
  if requiredColsPresent cols then
    Except.ok (mkReport rows)
  else
    Except.error "CSV must have columns: Date, Description, Amount"

/-- Rows with `Amount < 0` (src/app.py line 78). -/
def negRows (rows : List Row) : List Row :=
  rows.filter (fun r => r.amount < 0)

/-- Category labels occurring among the negative rows, first occurrence
order (pandas `groupby` sorts its keys; only membership and emptiness
matter here). -/
def negCategories (rows : List Row) : List String :=
  ((negRows rows).map categoryOf).eraseDups

/-- Series `expense_df` (src/app.py line 78): per-category absolute sums of
the negative amounts. -/
def expenseSeries (rows : List Row) : List (String × ℚ) :=
  (negCategories rows).map (fun c =>
    (c, |sumAmounts ((negRows rows).filter (fun r => categoryOf r == c))|))

/-- The series handed to `st.bar_chart`, one list entry per call
(src/app.py lines 79-80): the call is skipped when the series is empty. -/
def barChartCalls (rows : List Row) : List (List (String × ℚ)) :=
  let s := expenseSeries rows
  if s.isEmpty then [] else [s]

/-- The first keyword test of `categorize` (src/app.py line 23). -/
def kwFuel (d : String) : Bool :=
  strContains (lowerStr d) "shell" || strContains (lowerStr d) "fuel"

/-- The second keyword test of `categorize` (src/app.py line 25). -/
def kwPayroll (d : String) : Bool :=
  strContains (lowerStr d) "salary" || strContains (lowerStr d) "payroll"

/-- The third keyword test of `categorize` (src/app.py line 27). -/
def kwRent (d : String) : Bool :=
  strContains (lowerStr d) "rent"

/-- The fourth keyword test of `categorize` (src/app.py line 29). -/
def kwTax (d : String) : Bool :=
  strContains (lowerStr d) "tax" || strContains (lowerStr d) "vat"

/-- Sum of the amounts categorized `"Tax"` (these rows reach no aggregate
other than `total_assets`). -/
def taxTotal (rows : List Row) : ℚ :=
  sumAmounts (rows.filter (fun r => categoryOf r == "Tax"))

/-- Modelled from the spec: "Income = sum of amounts where category =
Sales Income", written as a per-row conditional sum to compare with the
filter-based code path. -/
def income_spec (rows : List Row) : ℚ :=
  (rows.map (fun r => if categoryOf r = "Sales Income" then r.amount else 0)).sum

/-- Modelled from the spec: "Expenses = sum of amounts where category label
contains Expense (sign preserved)". -/
def expenses_spec (rows : List Row) : ℚ :=
  (rows.map (fun r => if strContains (categoryOf r) "Expense" = true then r.amount else 0)).sum

/-- Modelled from the spec: "Total assets = sum of all amounts regardless
of category". -/
def total_assets_spec (rows : List Row) : ℚ :=
  (rows.map Row.amount).sum

/-- The three-row scenario of the spec: Shell Fuel −50, Salary 2000,
Office Rent −300. -/
def rows3 : List Row :=
  [⟨"2024-01-01", "Shell Fuel", -50⟩, ⟨"2024-01-02", "Salary", 2000⟩,
   ⟨"2024-01-03", "Office Rent", -300⟩]

/-- A transaction set without any Tax-categorized row. -/
def rowsNoTax : List Row :=
  [⟨"2024-01-01", "Shell Fuel", -50⟩, ⟨"2024-01-02", "Consulting", 900⟩]

/-- A transaction set with no negative amount. -/
def crowsPos : List Row := [⟨"2024-01-02", "Salary", 2000⟩]

/-- Unfolding of `categorize` through the named keyword tests. -/
lemma categorize_eq_kw (d : String) (a : ℚ) :
    categorize d a =
      (if kwFuel d then "Fuel Expense"
       else if kwPayroll d then "Payroll Expense"
       else if kwRent d then "Rent Expense"
       else if kwTax d then "Tax"
       else if a > 0 then "Sales Income"
       else "Other Expense") := rfl

/-- Every categorization lands in the closed six-label set. -/
lemma categorize_mem (d : String) (a : ℚ) :
    categorize d a ∈
      ["Fuel Expense", "Payroll Expense", "Rent Expense", "Tax",
       "Sales Income", "Other Expense"] := by
  rw [categorize_eq_kw]
  cases kwFuel d <;> cases kwPayroll d <;> cases kwRent d <;> cases kwTax d <;>
    by_cases ha : a > 0 <;> simp [ha]

lemma sumAmounts_cons (r : Row) (rs : List Row) :
    sumAmounts (r :: rs) = r.amount + sumAmounts rs := by
  simp [sumAmounts]

lemma sumAmounts_filter_cons (p : Row → Bool) (r : Row) (rs : List Row) :
    sumAmounts ((r :: rs).filter p) =
      (if p r then r.amount else 0) + sumAmounts (rs.filter p) := by
  by_cases h : p r <;> simp [List.filter_cons, h, sumAmounts]

lemma income_cons (r : Row) (rs : List Row) :
    income (r :: rs) =
      (if categoryOf r == "Sales Income" then r.amount else 0) + income rs := by
  simp [income, sumAmounts_filter_cons]

lemma expenses_cons (r : Row) (rs : List Row) :
    expenses (r :: rs) =
      (if strContains (categoryOf r) "Expense" then r.amount else 0) + expenses rs := by
  simp [expenses, sumAmounts_filter_cons]

lemma taxTotal_cons (r : Row) (rs : List Row) :
    taxTotal (r :: rs) =
      (if categoryOf r == "Tax" then r.amount else 0) + taxTotal rs := by
  simp [taxTotal, sumAmounts_filter_cons]

lemma total_assets_cons (r : Row) (rs : List Row) :
    total_assets (r :: rs) = r.amount + total_assets rs := by
  simp [total_assets, sumAmounts_cons]

lemma contains_expense_fuel : strContains "Fuel Expense" "Expense" = true := by decide

lemma contains_expense_payroll : strContains "Payroll Expense" "Expense" = true := by decide

lemma contains_expense_rent : strContains "Rent Expense" "Expense" = true := by decide

lemma contains_expense_other : strContains "Other Expense" "Expense" = true := by decide

lemma contains_expense_tax : strContains "Tax" "Expense" = false := by decide

lemma contains_expense_sales : strContains "Sales Income" "Expense" = false := by decide

/-- Every amount is counted exactly once: in income, in expenses, or in the
Tax bucket. -/
lemma assets_decomp (rows : List Row) :
    total_assets rows = income rows + expenses rows + taxTotal rows := by
  induction rows with
  | nil => simp [total_assets, income, expenses, taxTotal, sumAmounts]
  | cons r rs ih =>
    have h6 := categorize_mem r.description r.amount
    have hc : categoryOf r = categorize r.description r.amount := rfl
    simp only [List.mem_cons, List.not_mem_nil, or_false] at h6
    rw [total_assets_cons, income_cons, expenses_cons, taxTotal_cons, ih]
    rcases h6 with h | h | h | h | h | h <;>
      rw [hc, h] <;>
      simp [contains_expense_fuel, contains_expense_payroll, contains_expense_rent,
            contains_expense_other, contains_expense_tax, contains_expense_sales] <;>
      ring

lemma taxTotal_eq_zero (rows : List Row) (h : ∀ r ∈ rows, categoryOf r ≠ "Tax") :
    taxTotal rows = 0 := by
  have hf : rows.filter (fun r => categoryOf r == "Tax") = [] := by
    rw [List.filter_eq_nil_iff]
    intro r hr
    simp [h r hr]
  simp [taxTotal, hf, sumAmounts]

/-- A description matching any expense keyword test (shell/fuel,
salary/payroll, or rent) always lands in a label containing "Expense",
whichever of the first three rules fires. -/
lemma categorize_expense_of_kw (d : String) (a : ℚ)
    (hd : kwFuel d = true ∨ kwPayroll d = true ∨ kwRent d = true) :
    strContains (categorize d a) "Expense" = true := by
  rw [categorize_eq_kw]
  cases hf : kwFuel d <;> cases hp : kwPayroll d <;> cases hr : kwRent d <;>
    simp_all [contains_expense_fuel, contains_expense_payroll, contains_expense_rent]

lemma sumAmounts_filter_eq_map (p : Row → Bool) (rows : List Row) :
    sumAmounts (rows.filter p) =
      (rows.map (fun r => if p r = true then r.amount else 0)).sum := by
  induction rows with
  | nil => rfl
  | cons r rs ih =>
    rw [sumAmounts_filter_cons, List.map_cons, List.sum_cons, ih]

lemma requiredColsPresent_append (cols extras : List String)
    (h : requiredColsPresent cols = true) :
    requiredColsPresent (cols ++ extras) = true := by
  simp only [requiredColsPresent, List.all_eq_true] at h ⊢
  intro c hc
  have hm := h c hc
  simp only [List.elem_eq_mem, decide_eq_true_eq] at hm ⊢
  exact List.mem_append_left extras hm

lemma cat_shell_fuel : categoryOf ⟨"2024-01-01", "Shell Fuel", -50⟩ = "Fuel Expense" := by
  decide

lemma cat_salary : categoryOf ⟨"2024-01-02", "Salary", 2000⟩ = "Payroll Expense" := by
  decide

lemma cat_office_rent : categoryOf ⟨"2024-01-03", "Office Rent", -300⟩ = "Rent Expense" := by
  decide

/-- C1: the categorizer applies its rules in fixed order with first match
winning on the case-folded description — shell/fuel, then salary/payroll,
then rent, then tax/vat, then the sign of the amount; in particular a
description containing both "rent" and "tax" (and no earlier keyword)
resolves to Rent Expense. -/
theorem C1_thm (d : String) (a : ℚ) :
    (kwFuel d = true → categorize d a = "Fuel Expense") ∧
    (kwFuel d = false → kwPayroll d = true → categorize d a = "Payroll Expense") ∧
    (kwFuel d = false → kwPayroll d = false → kwRent d = true →
      categorize d a = "Rent Expense") ∧
    (kwFuel d = false → kwPayroll d = false → kwRent d = false → kwTax d = true →
      categorize d a = "Tax") ∧
    (kwFuel d = false → kwPayroll d = false → kwRent d = false → kwTax d = false →
      0 < a → categorize d a = "Sales Income") ∧
    (kwFuel d = false → kwPayroll d = false → kwRent d = false → kwTax d = false →
      ¬ 0 < a → categorize d a = "Other Expense") ∧
    (kwFuel d = false → kwPayroll d = false → kwRent d = true → kwTax d = true →
      categorize d a = "Rent Expense") := by
  rw [categorize_eq_kw]
  cases kwFuel d <;> cases kwPayroll d <;> cases kwRent d <;> cases kwTax d <;>
    by_cases ha : a > 0 <;> simp [ha]

/-- C1 witness: a description containing both "rent" and "tax" resolves to
Rent Expense. -/
theorem C1_witness :
    App.categorize "Office Rent & Council Tax" (-120) = "Rent Expense" :=
  (C1_thm "Office Rent & Council Tax" (-120)).2.2.2.2.2.2
    (by decide) (by decide) (by decide) (by decide)

/-- C2 counterexample: on the spec scenario rows the aggregates are not
income 2000 / expenses −350 / net profit 1650 / assets 1650 /
liabilities 350 / equity 1300 — the "Salary" row is keyword-categorized
Payroll Expense, not Sales Income. -/
theorem C2_counterexample :
    ¬ (income rows3 = 2000 ∧ expenses rows3 = -350 ∧ net_profit rows3 = 1650 ∧
       total_assets rows3 = 1650 ∧ total_liabilities rows3 = 350 ∧
       equity rows3 = 1300) := by
  decide

/-- C2 amended: on the scenario rows the "Salary" row is categorized
Payroll Expense (the salary keyword rule precedes the amount-sign rule),
so income = 0, expenses = 1650, net profit = 1650, assets = 1650,
liabilities = 1650, equity = 0. -/
theorem C2_thm :
    categoryOf ⟨"2024-01-02", "Salary", 2000⟩ = "Payroll Expense" ∧
    income rows3 = 0 ∧ expenses rows3 = 1650 ∧ net_profit rows3 = 1650 ∧
    total_assets rows3 = 1650 ∧ total_liabilities rows3 = 1650 ∧
    equity rows3 = 0 := by
  have hinc : income rows3 = 0 := by
    simp [rows3, income_cons, income, sumAmounts, cat_shell_fuel, cat_salary, cat_office_rent]
  have hexp : expenses rows3 = 1650 := by
    simp [rows3, expenses_cons, expenses, sumAmounts, cat_shell_fuel, cat_salary, cat_office_rent,
          contains_expense_fuel, contains_expense_payroll, contains_expense_rent]
    norm_num
  have hassets : total_assets rows3 = 1650 := by
    simp [rows3, total_assets_cons, total_assets, sumAmounts]
    norm_num
  have hliab : total_liabilities rows3 = 1650 := by
    have h : total_liabilities rows3 = |expenses rows3| := rfl
    rw [h, hexp]
    norm_num
  refine ⟨cat_salary, hinc, hexp, ?_, hassets, hliab, ?_⟩
  · rw [net_profit, hinc, hexp]
    norm_num
  · rw [equity, hassets, hliab]
    norm_num

/-- C3: the aggregator computes income as the sum over Sales Income rows,
expenses as the sign-preserving sum over rows whose label contains
"Expense", net profit exactly as income + expenses, assets as the sum of
all amounts, liabilities as the absolute value of the summed
expense-category amounts, and equity as assets − liabilities. -/
theorem C3_thm (rows : List Row) :
    income rows = income_spec rows ∧
    expenses rows = expenses_spec rows ∧
    net_profit rows = income rows + expenses rows ∧
    total_assets rows = total_assets_spec rows ∧
    total_liabilities rows = |expenses rows| ∧
    equity rows = total_assets rows - total_liabilities rows := by
  refine ⟨?_, ?_, rfl, rfl, rfl, rfl⟩
  · rw [income, sumAmounts_filter_eq_map, income_spec]
    have hfun :
        (fun r : Row => if (categoryOf r == "Sales Income") = true then r.amount else 0) =
          (fun r : Row => if categoryOf r = "Sales Income" then r.amount else 0) := by
      funext r
      by_cases h : categoryOf r = "Sales Income" <;> simp [h]
    rw [hfun]
  · rw [expenses, sumAmounts_filter_eq_map, expenses_spec]

/-- C4: each of the three ratios divides when its denominator is nonzero
and is exactly 0 when the denominator is 0; the functions are total, so
no division-by-zero error can arise. -/
theorem C4_thm (np inc liab eqv assets : ℚ) :
    (inc ≠ 0 → netProfitMargin np inc = np / inc * 100) ∧
    netProfitMargin np 0 = 0 ∧
    (eqv ≠ 0 → debtToEquity liab eqv = liab / eqv) ∧
    debtToEquity liab 0 = 0 ∧
    (assets ≠ 0 → equityRatioPct eqv assets = eqv / assets * 100) ∧
    equityRatioPct eqv 0 = 0 := by
  refine ⟨?_, ?_, ?_, ?_, ?_, ?_⟩ <;>
    simp [netProfitMargin, debtToEquity, equityRatioPct]
  all_goals intro h; simp [h]

/-- C4 witness: a nonzero-income margin evaluates to the quotient, and
each zero denominator yields exactly 0. -/
theorem C4_witness :
    App.netProfitMargin 1650 2000 = 165 / 2 ∧
    App.netProfitMargin 7 0 = 0 ∧
    App.debtToEquity 350 0 = 0 ∧
    App.equityRatioPct 5 0 = 0 := by
  have h := C4_thm 1650 2000 350 0 0
  refine ⟨?_, (C4_thm 7 0 0 0 0).2.1, h.2.2.2.1, h.2.2.2.2.2⟩
  have hq := h.1 (by norm_num)
  rw [hq]
  norm_num

/-- C5: the valuation proxies are net profit × 5, net profit × 6 and
income × 1.5; at net profit 1650 and income 2000 they are 8250, 9900 and
3000. -/
theorem C5_thm :
    (∀ np : ℚ, dcf_ev np = np * 5 ∧ ev_ebitda np = np * 6) ∧
    (∀ inc : ℚ, ev_revenue inc = inc * (3 / 2)) ∧
    dcf_ev 1650 = 8250 ∧ ev_ebitda 1650 = 9900 ∧ ev_revenue 2000 = 3000 := by
  refine ⟨fun np => ⟨rfl, rfl⟩, fun inc => rfl, ?_, ?_, ?_⟩ <;>
    norm_num [dcf_ev, ev_ebitda, ev_revenue]

/-- C6: a table missing a required column yields only the user-visible
error and no report; with all three columns present the full report is
derived from the rows, and appending any additional columns leaves the
result unchanged. -/
theorem C6_thm (cols : List String) (rows : List Row) :
    (requiredColsPresent cols = false →
      process cols rows = Except.error "CSV must have columns: Date, Description, Amount") ∧
    (requiredColsPresent cols = true →
      process cols rows = Except.ok (mkReport rows) ∧
      ∀ extras : List String, process (cols ++ extras) rows = Except.ok (mkReport rows)) := by
  constructor
  · intro h
    simp [process, h]
  · intro h
    refine ⟨by simp [process, h], fun extras => ?_⟩
    simp [process, requiredColsPresent_append cols extras h]

/-- C6 witness: a table without the Description column errors, and a table
with an extra Balance column is processed normally. -/
theorem C6_witness :
    App.process ["Date", "Amount"] [] =
      Except.error "CSV must have columns: Date, Description, Amount" ∧
    App.process ["Date", "Description", "Amount", "Balance"] [] =
      Except.ok (App.mkReport []) :=
  ⟨(C6_thm ["Date", "Amount"] []).1 (by decide),
   ((C6_thm ["Date", "Description", "Amount", "Balance"] []).2 (by decide)).1⟩

/-- C7: categorization is total and deterministic — every input receives
exactly one label from the closed six-label set, equal inputs receive
equal labels, and a description matching no keyword falls through to the
amount-sign default rather than to an error. -/
theorem C7_thm (d : String) (a : ℚ) :
    categorize d a ∈
      ["Fuel Expense", "Payroll Expense", "Rent Expense", "Tax",
       "Sales Income", "Other Expense"] ∧
    (∀ d2 : String, ∀ a2 : ℚ, d = d2 → a = a2 → categorize d a = categorize d2 a2) ∧
    (kwFuel d = false → kwPayroll d = false → kwRent d = false → kwTax d = false →
      categorize d a = if 0 < a then "Sales Income" else "Other Expense") := by
  refine ⟨categorize_mem d a, ?_, ?_⟩
  · intro d2 a2 hd ha
    rw [hd, ha]
  · intro h1 h2 h3 h4
    rw [categorize_eq_kw, h1, h2, h3, h4]
    simp

/-- C7 witness: the empty description and an unmatched description fall
through to the amount-sign default. -/
theorem C7_witness :
    App.categorize "" (-7) = "Other Expense" ∧
    App.categorize "zzz" 7 = "Sales Income" := by
  constructor
  · have h := (C7_thm "" (-7)).2.2 (by decide) (by decide) (by decide) (by decide)
    simpa using h
  · have h := (C7_thm "zzz" 7).2.2 (by decide) (by decide) (by decide) (by decide)
    simpa using h

/-- C8 counterexample: with no negative-amount row the guard skips the
call, so the bar chart component receives no series at all — not an empty
series. -/
theorem C8_counterexample :
    negRows crowsPos = [] ∧ barChartCalls crowsPos ≠ [[]] := by
  decide

/-- C8 amended: with no negative-amount row the expense series is empty
and the guarded bar-chart call is skipped entirely, so the charting step
cannot fail. -/
theorem C8_thm (rows : List Row) (h : ∀ r ∈ rows, ¬ r.amount < 0) :
    expenseSeries rows = [] ∧ barChartCalls rows = [] := by
  have hneg : negRows rows = [] := by
    rw [negRows, List.filter_eq_nil_iff]
    intro r hr
    simp [h r hr]
  have hs : expenseSeries rows = [] := by
    simp only [expenseSeries, negCategories, hneg]
    rfl
  exact ⟨hs, by simp [barChartCalls, hs]⟩

/-- C8 witness: a single positive-amount row yields an empty expense
series and no bar-chart call. -/
theorem C8_witness :
    App.expenseSeries App.crowsPos = [] ∧ App.barChartCalls App.crowsPos = [] :=
  C8_thm crowsPos (by decide)

/-- C9: total assets decompose as income + expenses + Tax amounts, so
without Tax rows total assets equal net profit; a Tax row changes none of
income, expenses or liabilities yet adds its amount to total assets. -/
theorem C9_thm (rows : List Row) :
    total_assets rows = income rows + expenses rows + taxTotal rows ∧
    ((∀ r ∈ rows, categoryOf r ≠ "Tax") → total_assets rows = net_profit rows) ∧
    (∀ r : Row, categoryOf r = "Tax" →
      income (r :: rows) = income rows ∧
      expenses (r :: rows) = expenses rows ∧
      total_liabilities (r :: rows) = total_liabilities rows ∧
      total_assets (r :: rows) = r.amount + total_assets rows) := by
  refine ⟨assets_decomp rows, ?_, ?_⟩
  · intro h
    rw [net_profit, assets_decomp rows, taxTotal_eq_zero rows h, add_zero]
  · intro r h
    refine ⟨?_, ?_, ?_, total_assets_cons r rows⟩
    · rw [income_cons, h]
      simp
    · rw [expenses_cons, h, contains_expense_tax]
      simp
    · have hx : strContains (categoryOf r) "Expense" = false := by
        rw [h]; exact contains_expense_tax
      simp [total_liabilities, List.filter_cons, hx]

/-- C9 witness: a Tax-free transaction set has assets equal to net profit,
and adding a VAT row leaves income unchanged. -/
theorem C9_witness :
    App.total_assets App.rowsNoTax = App.net_profit App.rowsNoTax ∧
    App.income (⟨"2024-01-04", "VAT payment", -100⟩ :: App.rowsNoTax) =
      App.income App.rowsNoTax := by
  constructor
  · exact (C9_thm rowsNoTax).2.1 (by decide)
  · exact ((C9_thm rowsNoTax).2.2 ⟨"2024-01-04", "VAT payment", -100⟩ (by decide)).1

/-- C10: keyword rules override the sign of the amount — a positive-amount
transaction whose description matches any expense keyword (shell, fuel,
salary, payroll or rent) is categorized with an Expense label, its amount
enters the expenses sum with positive sign, and it enters total
liabilities. -/
theorem C10_thm (t d : String) (a : ℚ) (ha : 0 < a)
    (hd : kwFuel d = true ∨ kwPayroll d = true ∨ kwRent d = true) :
    strContains (categorize d a) "Expense" = true ∧
    expenses [⟨t, d, a⟩] = a ∧
    total_liabilities [⟨t, d, a⟩] = a := by
  have hce : strContains (categoryOf ⟨t, d, a⟩) "Expense" = true :=
    categorize_expense_of_kw d a hd
  refine ⟨categorize_expense_of_kw d a hd, ?_, ?_⟩
  · rw [expenses_cons, hce]
    simp [income, expenses, sumAmounts]
  · simp [total_liabilities, List.filter_cons, hce, sumAmounts, abs_of_pos ha]

/-- C10 witness: positive-amount rows for each keyword family — "Shell
garage" +100, "Payroll refund" +500 and "Rent refund" +250 — are
expense-category rows counted positively in expenses and in liabilities. -/
theorem C10_witness :
    (App.strContains (App.categorize "Shell garage" 100) "Expense" = true ∧
     App.expenses [⟨"2024-02-01", "Shell garage", 100⟩] = 100 ∧
     App.total_liabilities [⟨"2024-02-01", "Shell garage", 100⟩] = 100) ∧
    (App.strContains (App.categorize "Payroll refund" 500) "Expense" = true ∧
     App.expenses [⟨"2024-02-02", "Payroll refund", 500⟩] = 500 ∧
     App.total_liabilities [⟨"2024-02-02", "Payroll refund", 500⟩] = 500) ∧
    (App.strContains (App.categorize "Rent refund" 250) "Expense" = true ∧
     App.expenses [⟨"2024-02-03", "Rent refund", 250⟩] = 250 ∧
     App.total_liabilities [⟨"2024-02-03", "Rent refund", 250⟩] = 250) :=
  ⟨C10_thm "2024-02-01" "Shell garage" 100 (by norm_num) (Or.inl (by decide)),
   C10_thm "2024-02-02" "Payroll refund" 500 (by norm_num) (Or.inr (Or.inl (by decide))),
   C10_thm "2024-02-03" "Rent refund" 250 (by norm_num) (Or.inr (Or.inr (by decide)))⟩

end App
